import Mathlib

/-!
Shallow embedding of the DDBImportExport repository (DDBExport.py, DDBImport.py):
the QoSCounter leaky bucket shared by both scripts, the application-level retry
loops around DynamoDB Scan / PutItem and S3 upload, the export worker's
file-rotation loop, the import queue setup, and the Decimal serialization
helper used when dumping items to JSON.
-/

namespace DDB

/-- Semantics of storing into `multiprocessing.RawValue('i', ...)`: a 4-byte
signed ctypes int that silently wraps modulo `2^32` on initialization and on
every assignment, landing in `[-2^31, 2^31)`. -/
def wrap32 (z : ℤ) : ℤ :=
  (z + 2 ^ 31) % 2 ^ 32 - 2 ^ 31

theorem wrap32_range (z : ℤ) : -(2 ^ 31) ≤ wrap32 z ∧ wrap32 z < 2 ^ 31 := by
  unfold wrap32
  omega

theorem wrap32_eq_self (z : ℤ) (h1 : -(2 ^ 31) ≤ z) (h2 : z < 2 ^ 31) :
    wrap32 z = z := by
  unfold wrap32
  omega

/-- State of a `QoSCounter` (both scripts): `capacity` and `refillRate` are
the two shared `RawValue('i')` cells created in `QoSCounter.__init__` —
32-bit signed ints, so every store below goes through `wrap32`.  The mutex
only serializes access, so the sequential state is just the two values. -/
structure QoSCounter where
  capacity : ℤ
  refillRate : ℤ
  deriving DecidableEq

/-- Model of `QoSCounter.__init__(value)`: both `capacity` and `refillRate`
are initialized from the single `value` argument, each store wrapping to 32
bits. -/
def QoSCounter.init (value : ℤ) : QoSCounter :=
  ⟨wrap32 value, wrap32 value⟩

/-- Model of `QoSCounter.consume(value)`: `self.capacity.value -= value`
(identical in both scripts); the exact difference is computed in Python and
the store into the ctypes cell wraps. -/
def QoSCounter.consume (value : ℤ) (s : QoSCounter) : QoSCounter :=
  { s with capacity := wrap32 (s.capacity - value) }

/-- Model of `QoSCounter.refill` in DDBExport.py (accumulating policy):
`self.capacity.value += self.refillRate.value`, no cap; the store wraps. -/
def QoSCounter.exportRefill (s : QoSCounter) : QoSCounter :=
  { s with capacity := wrap32 (s.capacity + s.refillRate) }

/-- Model of `QoSCounter.refill` in DDBImport.py (capped policy): add
`refillRate` (the store wraps), then compare the stored — wrapped — sum
against `refillRate` and clamp down to `refillRate` if it is larger. -/
def QoSCounter.importRefill (s : QoSCounter) : QoSCounter :=
  let c := wrap32 (s.capacity + s.refillRate)
  { s with capacity := if c > s.refillRate then wrap32 s.refillRate else c }

/-- One operation performed on a shared `QoSCounter`: a worker's `consume(n)`
or the refill thread's `refill()`. -/
inductive QOp where
  | consume (n : ℤ)
  | refill
  deriving DecidableEq

/-- Apply one operation to the DDBImport.py counter. -/
def importStep (s : QoSCounter) (op : QOp) : QoSCounter :=
  match op with
  | QOp.consume n => QoSCounter.consume n s
  | QOp.refill => QoSCounter.importRefill s

/-- Apply one operation to the DDBExport.py counter. -/
def exportStep (s : QoSCounter) (op : QOp) : QoSCounter :=
  match op with
  | QOp.consume n => QoSCounter.consume n s
  | QOp.refill => QoSCounter.exportRefill s

/-- Run a sequence of operations on the DDBImport.py counter. -/
def runImport (s : QoSCounter) (ops : List QOp) : QoSCounter :=
  ops.foldl importStep s

/-- Run a sequence of operations on the DDBExport.py counter. -/
def runExport (s : QoSCounter) (ops : List QOp) : QoSCounter :=
  ops.foldl exportStep s

theorem importStep_refillRate (s : QoSCounter) (op : QOp) :
    (importStep s op).refillRate = s.refillRate := by
  cases op <;> rfl

theorem runImport_refillRate (ops : List QOp) :
    ∀ s : QoSCounter, (runImport s ops).refillRate = s.refillRate := by
  induction ops with
  | nil => intro s; rfl
  | cons op ops ih =>
      intro s
      show (runImport (importStep s op) ops).refillRate = s.refillRate
      rw [ih, importStep_refillRate]

theorem importRefill_le (s : QoSCounter) (h1 : -(2 ^ 31) ≤ s.refillRate)
    (h2 : s.refillRate < 2 ^ 31) :
    (QoSCounter.importRefill s).capacity ≤ s.refillRate := by
  unfold QoSCounter.importRefill
  dsimp only
  have hid : wrap32 s.refillRate = s.refillRate := wrap32_eq_self _ h1 h2
  split
  · exact le_of_eq hid
  · next h => exact not_lt.mp h

/-- Counterexample to Claim C1 as stated: the accumulating refill of
DDBExport.py is not non-decreasing.  Starting from a counter built with
budget `2^29`, two refills accumulate the capacity to `3 * 2^29`; the third
refill overflows the 32-bit cell, wraps to `-2^31`, and strictly decreases
the capacity although no consume occurred in between. -/
theorem c1_refill_policies_counterexample :
    (runExport (QoSCounter.init 536870912) [QOp.refill, QOp.refill]).capacity
        = 1610612736
    ∧ (runExport (QoSCounter.init 536870912)
        [QOp.refill, QOp.refill, QOp.refill]).capacity = -2147483648
    ∧ ¬((runExport (QoSCounter.init 536870912) [QOp.refill, QOp.refill]).capacity
        ≤ (runExport (QoSCounter.init 536870912)
            [QOp.refill, QOp.refill, QOp.refill]).capacity) := by
  decide

/-- Claim C1 (amended): under the capped refill policy (DDBImport.py),
capacity immediately after any refill call never exceeds `refillRate`,
whatever sequence of consume/refill operations followed construction — this
survives the 32-bit wrap, because the code clamps the already-wrapped sum.
Under the accumulating policy (DDBExport.py), capacity is non-decreasing
across a refill with no consume in between provided the refill rate is
non-negative and the exact sum still fits in the signed 32-bit cell; when
the accumulation crosses `2^31 - 1` the stored value wraps negative and the
refill strictly decreases capacity. -/
theorem c1_refill_policies :
    (∀ (v : ℤ) (ops : List QOp),
        (runImport (QoSCounter.init v) (ops ++ [QOp.refill])).capacity
          ≤ (QoSCounter.init v).refillRate)
    ∧ (∀ s : QoSCounter, 0 ≤ s.refillRate → -(2 ^ 31) ≤ s.capacity →
        s.capacity + s.refillRate < 2 ^ 31 →
        s.capacity ≤ (QoSCounter.exportRefill s).capacity) := by
  constructor
  · intro v ops
    have hrr : (runImport (QoSCounter.init v) ops).refillRate
        = (QoSCounter.init v).refillRate :=
      runImport_refillRate ops _
    have hfold : runImport (QoSCounter.init v) (ops ++ [QOp.refill])
        = importStep (runImport (QoSCounter.init v) ops) QOp.refill := by
      unfold runImport
      rw [List.foldl_append]
      rfl
    rw [hfold]
    show (QoSCounter.importRefill
        (runImport (QoSCounter.init v) ops)).capacity
      ≤ (QoSCounter.init v).refillRate
    rw [← hrr]
    refine importRefill_le _ ?_ ?_
    · rw [hrr]
      exact (wrap32_range v).1
    · rw [hrr]
      exact (wrap32_range v).2
  · intro s h0 h1 h2
    show s.capacity ≤ wrap32 (s.capacity + s.refillRate)
    rw [wrap32_eq_self _ (by omega) h2]
    omega

/-- Witness for C1 (amended) at a concrete counter and operation sequence. -/
theorem c1_refill_policies_witness :
    (runImport (QoSCounter.init 5) ([QOp.consume 3] ++ [QOp.refill])).capacity
        ≤ (QoSCounter.init 5).refillRate
    ∧ (⟨2, 7⟩ : QoSCounter).capacity ≤ (QoSCounter.exportRefill ⟨2, 7⟩).capacity :=
  ⟨c1_refill_policies.1 5 [QOp.consume 3],
   c1_refill_policies.2 ⟨2, 7⟩ (by decide) (by decide) (by decide)⟩

/-- Counterexample to Claim C6 as stated: `consume` does not subtract
exactly, and capacity cannot become arbitrarily negative.  Consuming
`2^31 + 1` from a freshly built zero counter drops past `-2^31`, and the
32-bit store wraps the result to `2^31 - 1` — positive, not
`0 - (2^31 + 1)`. -/
theorem c6_consume_counterexample :
    (QoSCounter.consume 2147483649 (QoSCounter.init 0)).capacity = 2147483647
    ∧ (QoSCounter.consume 2147483649 (QoSCounter.init 0)).capacity
        ≠ (QoSCounter.init 0).capacity - 2147483649
    ∧ 0 < (QoSCounter.consume 2147483649 (QoSCounter.init 0)).capacity := by
  decide

/-- Claim C6 (amended): `consume(n)` stores the 32-bit wrap of
`capacity - n`, leaving the refill rate untouched, and never clamps, rejects
or fails.  The subtraction is exact exactly as long as the result fits in
the signed 32-bit cell; within that window a single consume can drive the
capacity to any value of `[-2^31, 2^31)` — in particular into negative
overdraft down to `-2^31` — but never below, since dropping past `-2^31`
wraps to a positive value. -/
theorem c6_consume_semantics :
    (∀ (s : QoSCounter) (n : ℤ),
        (QoSCounter.consume n s).capacity = wrap32 (s.capacity - n)
        ∧ (QoSCounter.consume n s).refillRate = s.refillRate)
    ∧ (∀ (s : QoSCounter) (n : ℤ), -(2 ^ 31) ≤ s.capacity - n →
        s.capacity - n < 2 ^ 31 →
        (QoSCounter.consume n s).capacity = s.capacity - n)
    ∧ (∀ t : ℤ, -(2 ^ 31) ≤ t → t < 2 ^ 31 → ∀ s : QoSCounter, ∃ n : ℤ,
        (QoSCounter.consume n s).capacity = t)
    ∧ (∀ (s : QoSCounter) (n : ℤ),
        -(2 ^ 31) ≤ (QoSCounter.consume n s).capacity
        ∧ (QoSCounter.consume n s).capacity < 2 ^ 31) := by
  refine ⟨fun s n => ⟨rfl, rfl⟩, ?_, ?_, ?_⟩
  · intro s n h1 h2
    show wrap32 (s.capacity - n) = s.capacity - n
    exact wrap32_eq_self _ h1 h2
  · intro t h1 h2 s
    refine ⟨s.capacity - t, ?_⟩
    show wrap32 (s.capacity - (s.capacity - t)) = t
    rw [show s.capacity - (s.capacity - t) = t by ring]
    exact wrap32_eq_self t h1 h2
  · intro s n
    exact wrap32_range (s.capacity - n)

/-- Witness for C6 (amended): an in-range consume subtracts exactly, and a
single consume reaches the concrete negative target -5. -/
theorem c6_consume_semantics_witness :
    (QoSCounter.consume 3 (QoSCounter.init 0)).capacity
        = (QoSCounter.init 0).capacity - 3
    ∧ (∃ n : ℤ, (QoSCounter.consume n (QoSCounter.init 7)).capacity = -5) :=
  ⟨c6_consume_semantics.2.1 (QoSCounter.init 0) 3 (by decide) (by decide),
   c6_consume_semantics.2.2.1 (-5) (by decide) (by decide) (QoSCounter.init 7)⟩

/-- Counterexample to Claim C9 as stated: the constructor does not store
every budget `v` verbatim.  Initializing with `2^31` wraps both cells to
`-2^31`. -/
theorem c9_init_counterexample :
    (QoSCounter.init 2147483648).capacity = -2147483648
    ∧ (QoSCounter.init 2147483648).capacity ≠ 2147483648
    ∧ (QoSCounter.init 2147483648).refillRate ≠ 2147483648 := by
  decide

/-- Claim C9 (amended): constructing a `QoSCounter` from the single
configured budget `v` stores the same 32-bit-wrapped value `wrap32 v` into
both the initial capacity and the per-tick refill amount — equal to `v`
itself whenever `v` fits in a signed 32-bit int; the constructor has no
separate refill-rate input, so the two can never differ. -/
theorem c9_init_couples_rate :
    ∀ v : ℤ,
      (QoSCounter.init v).capacity = wrap32 v
      ∧ (QoSCounter.init v).refillRate = wrap32 v
      ∧ (QoSCounter.init v).capacity = (QoSCounter.init v).refillRate
      ∧ (-(2 ^ 31) ≤ v → v < 2 ^ 31 →
          (QoSCounter.init v).capacity = v
          ∧ (QoSCounter.init v).refillRate = v) := by
  intro v
  refine ⟨rfl, rfl, rfl, fun h1 h2 => ?_⟩
  exact ⟨wrap32_eq_self v h1 h2, wrap32_eq_self v h1 h2⟩

/-- Witness for C9 (amended) at the in-range budget 1000, discharging the
range hypotheses. -/
theorem c9_init_couples_rate_witness :
    (QoSCounter.init 1000).capacity = 1000
    ∧ (QoSCounter.init 1000).refillRate = 1000 :=
  (c9_init_couples_rate 1000).2.2.2 (by decide) (by decide)

/-! Retry loops.  `ddbScan` (DDBExport.py), `ddbWrite` (DDBImport.py) and
`s3Upload` (DDBExport.py) all follow the same shape: up to a fixed number of
attempts; on failure increment the attempt counter, sleep, retry; on success
run a success action (for scan/write: `counter.consume(...)`) and stop; when
attempts are exhausted, print and `sys.exit()` (fatal for the worker
process).  The backend is modelled by `f : ℕ → Option α` giving the outcome
of each attempt, and the run is recorded as a trace of events. -/

/-- Observable events of one gated, retried operation. -/
inductive Ev where
  | poll (v : ℤ)
  | sleepEv (s : ℕ)
  | issue (k : ℕ)
  | consumeEv (n : ℤ)
  | exitEv
  deriving DecidableEq

/-- Result of a retried operation: success with the backend's response, or
retry exhaustion (which the scripts turn into `sys.exit()`). -/
inductive RResult (α : Type) where
  | ok (a : α)
  | exhausted
  deriving DecidableEq

/-- The retry loop shared by `ddbScan` / `ddbWrite` / `s3Upload`: `k` is the
current attempt index (`ddb_retry_count`), the second argument the number of
attempts still allowed.  On success the events `onOk a` are emitted (the
`counter.consume` call); on failure the loop sleeps `backoff` of the new
attempt count and retries; on exhaustion it emits `exitEv` (`sys.exit()`). -/
def retryTrace {α : Type} (f : ℕ → Option α) (onOk : α → List Ev)
    (backoff : ℕ → ℕ) : ℕ → ℕ → List Ev × RResult α
  | _, 0 => ([Ev.exitEv], RResult.exhausted)
  | k, n + 1 =>
    match f k with
    | some a => (Ev.issue k :: onOk a, RResult.ok a)
    | none =>
      let p := retryTrace f onOk backoff (k + 1) n
      (Ev.issue k :: Ev.sleepEv (backoff (k + 1)) :: p.1, p.2)

/-- Whether an event is the issuing of a billed backend call. -/
def isIssue : Ev → Bool
  | Ev.issue _ => true
  | _ => false

/-- Number of billed attempts recorded in a trace. -/
def issueCount (l : List Ev) : ℕ :=
  (l.filter isIssue).length

/-- The arguments of the `counter.consume` calls recorded in a trace. -/
def consumes (l : List Ev) : List ℤ :=
  l.filterMap fun e =>
    match e with
    | Ev.consumeEv n => some n
    | _ => none

theorem retryTrace_ok_of_firstFail {α : Type} (f : ℕ → Option α)
    (onOk : α → List Ev) (backoff : ℕ → ℕ)
    (hOk : ∀ (a : α) (e : Ev), e ∈ onOk a → isIssue e = false ∧ e ≠ Ev.exitEv) :
    ∀ (k n j : ℕ) (a : α), k < n → (∀ i, i < k → f (j + i) = none) →
      f (j + k) = some a →
      (retryTrace f onOk backoff j n).2 = RResult.ok a
      ∧ issueCount (retryTrace f onOk backoff j n).1 = k + 1
      ∧ Ev.exitEv ∉ (retryTrace f onOk backoff j n).1 := by
  intro k
  induction k with
  | zero =>
      intro n j a hk _ hsome
      obtain ⟨m, rfl⟩ : ∃ m, n = m + 1 := ⟨n - 1, by omega⟩
      have hj : f j = some a := by simpa using hsome
      refine ⟨?_, ?_, ?_⟩
      · simp [retryTrace, hj]
      · have hfil : (onOk a).filter isIssue = [] := by
          rw [List.filter_eq_nil_iff]
          intro e he
          simp [(hOk a e he).1]
        simp [retryTrace, hj, issueCount, List.filter_cons, isIssue, hfil]
      · simp only [retryTrace, hj, List.mem_cons]
        rintro (h | h)
        · exact Ev.noConfusion h
        · exact (hOk a _ h).2 rfl
  | succ k ih =>
      intro n j a hk hfail hsome
      obtain ⟨m, rfl⟩ : ∃ m, n = m + 1 := ⟨n - 1, by omega⟩
      have hj : f j = none := by simpa using hfail 0 (Nat.succ_pos k)
      have hfail' : ∀ i, i < k → f (j + 1 + i) = none := by
        intro i hi
        have := hfail (i + 1) (by omega)
        simpa [Nat.add_assoc, Nat.add_comm 1 i] using this
      have hsome' : f (j + 1 + k) = some a := by
        have : j + 1 + k = j + (k + 1) := by omega
        rw [this]; exact hsome
      obtain ⟨h1, h2, h3⟩ := ih m (j + 1) a (by omega) hfail' hsome'
      refine ⟨?_, ?_, ?_⟩
      · simpa [retryTrace, hj] using h1
      · simp only [retryTrace, hj, issueCount, List.filter_cons] at h2 ⊢
        simp only [isIssue, List.length_cons] at h2 ⊢
        simp [h2]
      · simp only [retryTrace, hj, List.mem_cons]
        rintro (h | h | h)
        · exact Ev.noConfusion h
        · exact Ev.noConfusion h
        · exact h3 h

theorem retryTrace_exhausted {α : Type} (f : ℕ → Option α)
    (onOk : α → List Ev) (backoff : ℕ → ℕ) (hall : ∀ i, f i = none) :
    ∀ n j : ℕ,
      (retryTrace f onOk backoff j n).2 = RResult.exhausted
      ∧ issueCount (retryTrace f onOk backoff j n).1 = n
      ∧ Ev.exitEv ∈ (retryTrace f onOk backoff j n).1 := by
  intro n
  induction n with
  | zero =>
      intro j
      refine ⟨rfl, rfl, ?_⟩
      simp [retryTrace]
  | succ m ih =>
      intro j
      obtain ⟨h1, h2, h3⟩ := ih (j + 1)
      refine ⟨?_, ?_, ?_⟩
      · simpa [retryTrace, hall j] using h1
      · simp only [retryTrace, hall j, issueCount, List.filter_cons] at h2 ⊢
        simp only [isIssue, List.length_cons] at h2 ⊢
        simp [h2]
      · simp only [retryTrace, hall j, List.mem_cons]
        exact Or.inr (Or.inr h3)

/-- Claim C2: for any retried billed operation modelled by `retryTrace`
(`ddbScan` and `s3Upload` use `maxAttempts = 3`, `ddbWrite` uses
`maxAttempts = 10`; see `scanOp`, `putOp`, `s3UploadOp` below), if the first
`k < maxAttempts` attempts fail and attempt `k+1` succeeds, the operation
returns that success after exactly `k+1` issued attempts and never reaches
`sys.exit`; if every attempt fails, exactly `maxAttempts` attempts are issued
and the run ends in retry exhaustion with the fatal `sys.exit` event. -/
theorem c2_retry_policy :
    ∀ (α : Type) (f : ℕ → Option α) (onOk : α → List Ev) (backoff : ℕ → ℕ)
      (maxAttempts : ℕ),
      (∀ (a : α) (e : Ev), e ∈ onOk a → isIssue e = false ∧ e ≠ Ev.exitEv) →
      ((∀ (k : ℕ) (a : α), k < maxAttempts → (∀ i, i < k → f i = none) →
          f k = some a →
          (retryTrace f onOk backoff 0 maxAttempts).2 = RResult.ok a
          ∧ issueCount (retryTrace f onOk backoff 0 maxAttempts).1 = k + 1
          ∧ Ev.exitEv ∉ (retryTrace f onOk backoff 0 maxAttempts).1)
        ∧ ((∀ i, f i = none) →
          (retryTrace f onOk backoff 0 maxAttempts).2 = RResult.exhausted
          ∧ issueCount (retryTrace f onOk backoff 0 maxAttempts).1 = maxAttempts
          ∧ Ev.exitEv ∈ (retryTrace f onOk backoff 0 maxAttempts).1)) := by
  intro α f onOk backoff maxAttempts hOk
  constructor
  · intro k a hk hfail hsome
    exact retryTrace_ok_of_firstFail f onOk backoff hOk k maxAttempts 0 a hk
      (by simpa using hfail) (by simpa using hsome)
  · intro hall
    exact retryTrace_exhausted f onOk backoff hall maxAttempts 0

/-- Witness for C2: one failed attempt followed by a success yields the
result after exactly two attempts. -/
theorem c2_retry_policy_witness :
    (retryTrace (fun i => if i < 1 then none else some 7)
        (fun _ => ([] : List Ev)) (fun _ => 1) 0 3).2 = RResult.ok 7
    ∧ issueCount (retryTrace (fun i => if i < 1 then none else some 7)
        (fun _ => ([] : List Ev)) (fun _ => 1) 0 3).1 = 1 + 1
    ∧ Ev.exitEv ∉ (retryTrace (fun i => if i < 1 then none else some 7)
        (fun _ => ([] : List Ev)) (fun _ => 1) 0 3).1 :=
  (c2_retry_policy ℕ (fun i => if i < 1 then none else some 7)
      (fun _ => ([] : List Ev)) (fun _ => 1) 3
      (fun _ e he => absurd he (List.not_mem_nil e))).1 1 7 (by omega)
    (fun i hi => by
      have h0 : i = 0 := by omega
      subst h0
      rfl)
    (by decide)

/-! The QoS admission gate.  Both `ddbScan` and `ddbWrite` begin with
`while counter.value() <= 0: time.sleep(1)`.  Since the counter is refilled
concurrently, the sequence of values observed by the polling loop is
modelled as `obs : ℕ → ℤ`; `fuel` bounds the number of polls so the loop is
a total function (`none` means the gate was still blocked when the fuel ran
out, i.e. the worker is still waiting). -/

/-- The polling gate: poll `obs i`; if it is `≤ 0`, sleep one second and poll
again; otherwise fall through. -/
def qosWait (obs : ℕ → ℤ) : ℕ → ℕ → Option (List Ev)
  | _, 0 => none
  | i, fuel + 1 =>
    if obs i ≤ 0 then
      (qosWait obs (i + 1) fuel).map fun l => Ev.poll (obs i) :: Ev.sleepEv 1 :: l
    else
      some [Ev.poll (obs i)]

/-- Closed form of a successful gate trace: `n` failed polls, each followed
by a one-second sleep, then the poll that observed a positive value. -/
def pollTrace (obs : ℕ → ℤ) : ℕ → ℕ → List Ev
  | i, 0 => [Ev.poll (obs i)]
  | i, n + 1 => Ev.poll (obs i) :: Ev.sleepEv 1 :: pollTrace obs (i + 1) n

theorem qosWait_spec (obs : ℕ → ℤ) :
    ∀ (fuel i : ℕ) (l : List Ev), qosWait obs i fuel = some l →
      ∃ n, (∀ j, j < n → obs (i + j) ≤ 0) ∧ 0 < obs (i + n)
        ∧ l = pollTrace obs i n := by
  intro fuel
  induction fuel with
  | zero => intro i l h; exact Option.noConfusion h
  | succ m ih =>
      intro i l h
      by_cases hle : obs i ≤ 0
      · simp only [qosWait, hle, if_pos, Option.map_eq_some'] at h
        obtain ⟨l', hl', rfl⟩ := h
        obtain ⟨n, hneg, hpos, rfl⟩ := ih (i + 1) l' hl'
        refine ⟨n + 1, ?_, ?_, rfl⟩
        · intro j hj
          match j with
          | 0 => simpa using hle
          | j' + 1 =>
              have := hneg j' (by omega)
              have harith : i + 1 + j' = i + (j' + 1) := by omega
              rwa [harith] at this
        · have harith : i + 1 + n = i + (n + 1) := by omega
          rwa [harith] at hpos
      · simp only [qosWait, hle, if_neg, not_false_iff, Option.some.injEq] at h
        refine ⟨0, by omega, by simpa using (by omega : 0 < obs i), ?_⟩
        rw [← h]; rfl

theorem pollTrace_no_issue (obs : ℕ → ℤ) :
    ∀ (n i : ℕ) (e : Ev), e ∈ pollTrace obs i n → isIssue e = false := by
  intro n
  induction n with
  | zero =>
      intro i e he
      simp only [pollTrace, List.mem_singleton] at he
      subst he; rfl
  | succ m ih =>
      intro i e he
      simp only [pollTrace, List.mem_cons] at he
      rcases he with rfl | rfl | he
      · rfl
      · rfl
      · exact ih (i + 1) e he

theorem pollTrace_consumes (obs : ℕ → ℤ) :
    ∀ n i : ℕ, consumes (pollTrace obs i n) = [] := by
  intro n
  induction n with
  | zero => intro i; rfl
  | succ m ih =>
      intro i
      simp only [pollTrace, consumes, List.filterMap_cons]
      exact ih (i + 1)

theorem retryTrace_ok_mem {α : Type} (f : ℕ → Option α) (onOk : α → List Ev)
    (backoff : ℕ → ℕ) :
    ∀ (n j : ℕ) (a : α), (retryTrace f onOk backoff j n).2 = RResult.ok a →
      ∀ e ∈ onOk a, e ∈ (retryTrace f onOk backoff j n).1 := by
  intro n
  induction n with
  | zero => intro j a h; exact RResult.noConfusion h
  | succ m ih =>
      intro j a h e he
      cases hf : f j with
      | some a' =>
          simp only [retryTrace, hf] at h ⊢
          have ha : a' = a := RResult.ok.inj h
          subst ha
          exact List.mem_cons_of_mem _ he
      | none =>
          simp only [retryTrace, hf] at h ⊢
          exact List.mem_cons_of_mem _ (List.mem_cons_of_mem _ (ih (j + 1) a h e he))

theorem retryTrace_ok_consumes {α : Type} (f : ℕ → Option α)
    (onOk : α → List Ev) (backoff : ℕ → ℕ) :
    ∀ (n j : ℕ) (a : α), (retryTrace f onOk backoff j n).2 = RResult.ok a →
      consumes (retryTrace f onOk backoff j n).1 = consumes (onOk a) := by
  intro n
  induction n with
  | zero => intro j a h; exact RResult.noConfusion h
  | succ m ih =>
      intro j a h
      cases hf : f j with
      | some a' =>
          simp only [retryTrace, hf] at h ⊢
          have ha : a' = a := RResult.ok.inj h
          subst ha
          simp [consumes, List.filterMap_cons]
      | none =>
          simp only [retryTrace, hf] at h ⊢
          simp only [consumes, List.filterMap_cons]
          exact ih (j + 1) a h

theorem consumes_append (l l' : List Ev) :
    consumes (l ++ l') = consumes l ++ consumes l' := by
  simp [consumes, List.filterMap_append]

/-- Python `int(x)` applied to the scan response's `CapacityUnits` figure:
truncation toward zero of a (decimal) rational. -/
def pyTrunc (q : ℚ) : ℤ :=
  if 0 ≤ q.num then (q.num.toNat / q.den : ℕ)
  else -(((-q.num).toNat / q.den : ℕ) : ℤ)

/-- The part of a DynamoDB Scan response that the retry loop itself uses:
the reported `ConsumedCapacity.CapacityUnits` figure.  (`Items` and
`LastEvaluatedKey` drive the export worker loop, modelled separately.) -/
structure ScanResp where
  capacityUnits : ℚ
  deriving DecidableEq

/-- The `ddbScan` retry loop (DDBExport.py): at most 3 attempts; on success,
`counter.consume(int(response['ConsumedCapacity']['CapacityUnits']))`; the
failure sleep is `random.randrange(10)`, modelled by `backoff`. -/
def scanOp (f : ℕ → Option ScanResp) (backoff : ℕ → ℕ) :
    List Ev × RResult ScanResp :=
  retryTrace f (fun r => [Ev.consumeEv (pyTrunc r.capacityUnits)]) backoff 0 3

/-- Model of `math.ceil(len(line)/1024)`: the estimated WCU cost of one PutItem. -/
def writeCost (line : String) : ℤ :=
  ((line.length + 1023) / 1024 : ℕ)

/-- The `ddbWrite` retry loop (DDBImport.py): at most 10 attempts; on success
`counter.consume(math.ceil(size/1024))` with `size = len(line)`; on failure
sleep `ddb_retry_count * 5` seconds (linear backoff). -/
def putOp (f : ℕ → Option Unit) (cost : ℤ) : List Ev × RResult Unit :=
  retryTrace f (fun _ => [Ev.consumeEv cost]) (fun c => 5 * c) 0 10

/-- The `s3Upload` retry loop (DDBExport.py): at most 3 attempts, no consume
call, random sleep on failure. -/
def s3UploadOp (f : ℕ → Option Unit) (backoff : ℕ → ℕ) :
    List Ev × RResult Unit :=
  retryTrace f (fun _ => []) backoff 0 3

/-- Model of `ddbScan` (DDBExport.py): first the QoS gate, then the retried Scan. -/
def ddbScanTrace (obs : ℕ → ℤ) (f : ℕ → Option ScanResp) (backoff : ℕ → ℕ)
    (fuel : ℕ) : Option (List Ev × RResult ScanResp) :=
  (qosWait obs 0 fuel).map fun g =>
    (g ++ (scanOp f backoff).1, (scanOp f backoff).2)

/-- Model of `ddbWrite` (DDBImport.py): first the QoS gate, then `size = len(line)`,
then the retried PutItem consuming `ceil(size/1024)` on success. -/
def ddbWriteTrace (obs : ℕ → ℤ) (f : ℕ → Option Unit) (line : String)
    (fuel : ℕ) : Option (List Ev × RResult Unit) :=
  (qosWait obs 0 fuel).map fun g =>
    (g ++ (putOp f (writeCost line)).1, (putOp f (writeCost line)).2)

/-- Claim C5: whenever `ddbScan` or `ddbWrite` completes its admission gate,
the trace splits into a polling prefix — every observation before the last
was `≤ 0` and each was followed by a one-second sleep, the last observation
is `> 0`, and no billed operation is issued in it — followed by the retried
operation; and on success the worker calls `consume` with the operation's
measured cost (the truncated reported capacity for Scan, `ceil(len/1024)`
for PutItem). -/
theorem c5_admission_gate :
    (∀ (obs : ℕ → ℤ) (f : ℕ → Option ScanResp) (backoff : ℕ → ℕ) (fuel : ℕ)
        (tr : List Ev) (res : RResult ScanResp),
        ddbScanTrace obs f backoff fuel = some (tr, res) →
        ∃ n, (∀ j, j < n → obs j ≤ 0) ∧ 0 < obs n
          ∧ tr = pollTrace obs 0 n ++ (scanOp f backoff).1
          ∧ (∀ e ∈ pollTrace obs 0 n, isIssue e = false)
          ∧ (∀ r, res = RResult.ok r →
              Ev.consumeEv (pyTrunc r.capacityUnits) ∈ tr))
    ∧ (∀ (obs : ℕ → ℤ) (f : ℕ → Option Unit) (line : String) (fuel : ℕ)
        (tr : List Ev) (res : RResult Unit),
        ddbWriteTrace obs f line fuel = some (tr, res) →
        ∃ n, (∀ j, j < n → obs j ≤ 0) ∧ 0 < obs n
          ∧ tr = pollTrace obs 0 n ++ (putOp f (writeCost line)).1
          ∧ (∀ e ∈ pollTrace obs 0 n, isIssue e = false)
          ∧ (res = RResult.ok () →
              Ev.consumeEv (writeCost line) ∈ tr)) := by
  constructor
  · intro obs f backoff fuel tr res h
    simp only [ddbScanTrace, Option.map_eq_some'] at h
    obtain ⟨g, hg, heq⟩ := h
    injection heq with htr hres
    subst htr
    subst hres
    obtain ⟨n, hneg, hpos, rfl⟩ := qosWait_spec obs fuel 0 g hg
    refine ⟨n, by simpa using hneg, by simpa using hpos, rfl,
      fun e he => pollTrace_no_issue obs n 0 e he, ?_⟩
    intro r hr
    exact List.mem_append_right _ (retryTrace_ok_mem f
      (fun r => [Ev.consumeEv (pyTrunc r.capacityUnits)]) backoff 3 0 r hr
      (Ev.consumeEv (pyTrunc r.capacityUnits)) (by simp))
  · intro obs f line fuel tr res h
    simp only [ddbWriteTrace, Option.map_eq_some'] at h
    obtain ⟨g, hg, heq⟩ := h
    injection heq with htr hres
    subst htr
    subst hres
    obtain ⟨n, hneg, hpos, rfl⟩ := qosWait_spec obs fuel 0 g hg
    refine ⟨n, by simpa using hneg, by simpa using hpos, rfl,
      fun e he => pollTrace_no_issue obs n 0 e he, ?_⟩
    intro hr
    exact List.mem_append_right _ (retryTrace_ok_mem f
      (fun _ => [Ev.consumeEv (writeCost line)]) (fun c => 5 * c) 10 0 () hr
      (Ev.consumeEv (writeCost line)) (by simp))

/-- Witness for C5 at a concrete scan run: the counter reads 1, the first
attempt succeeds reporting 3 capacity units. -/
theorem c5_admission_gate_witness :
    ∃ n, (∀ j, j < n → (fun _ : ℕ => (1 : ℤ)) j ≤ 0)
      ∧ 0 < (fun _ : ℕ => (1 : ℤ)) n
      ∧ ([Ev.poll 1, Ev.issue 0, Ev.consumeEv 3] : List Ev)
          = pollTrace (fun _ => 1) 0 n
            ++ (scanOp (fun _ => some ⟨3⟩) (fun _ => 0)).1
      ∧ (∀ e ∈ pollTrace (fun _ : ℕ => (1 : ℤ)) 0 n, isIssue e = false)
      ∧ (∀ r, (RResult.ok (⟨3⟩ : ScanResp) : RResult ScanResp) = RResult.ok r →
          Ev.consumeEv (pyTrunc r.capacityUnits)
            ∈ ([Ev.poll 1, Ev.issue 0, Ev.consumeEv 3] : List Ev)) :=
  c5_admission_gate.1 (fun _ => 1) (fun _ => some ⟨3⟩) (fun _ => 0) 1
    [Ev.poll 1, Ev.issue 0, Ev.consumeEv 3] (RResult.ok ⟨3⟩) (by decide)

/-- Claim C7: governor debits differ by direction.  A successful `ddbScan`
run consumes exactly the backend-reported capacity figure truncated to an
integer (`int(response['ConsumedCapacity']['CapacityUnits'])`), and nothing
else; a successful `ddbWrite` run consumes exactly `ceil(len(line)/1024)`, a
payload-size estimate that does not depend on any backend-reported cost. -/
theorem c7_cost_asymmetry :
    (∀ (obs : ℕ → ℤ) (f : ℕ → Option ScanResp) (backoff : ℕ → ℕ) (fuel : ℕ)
        (tr : List Ev) (r : ScanResp),
        ddbScanTrace obs f backoff fuel = some (tr, RResult.ok r) →
        consumes tr = [pyTrunc r.capacityUnits])
    ∧ (∀ (obs : ℕ → ℤ) (f : ℕ → Option Unit) (line : String) (fuel : ℕ)
        (tr : List Ev),
        ddbWriteTrace obs f line fuel = some (tr, RResult.ok ()) →
        consumes tr = [writeCost line]) := by
  constructor
  · intro obs f backoff fuel tr r h
    simp only [ddbScanTrace, Option.map_eq_some'] at h
    obtain ⟨g, hg, heq⟩ := h
    injection heq with htr hres
    subst htr
    obtain ⟨n, _, _, rfl⟩ := qosWait_spec obs fuel 0 g hg
    rw [consumes_append, pollTrace_consumes, List.nil_append]
    simp only [scanOp] at hres ⊢
    rw [retryTrace_ok_consumes f
      (fun r => [Ev.consumeEv (pyTrunc r.capacityUnits)]) backoff 3 0 r hres]
    rfl
  · intro obs f line fuel tr h
    simp only [ddbWriteTrace, Option.map_eq_some'] at h
    obtain ⟨g, hg, heq⟩ := h
    injection heq with htr hres
    subst htr
    obtain ⟨n, _, _, rfl⟩ := qosWait_spec obs fuel 0 g hg
    rw [consumes_append, pollTrace_consumes, List.nil_append]
    simp only [putOp] at hres ⊢
    rw [retryTrace_ok_consumes f (fun _ => [Ev.consumeEv (writeCost line)])
      (fun c => 5 * c) 10 0 () hres]
    rfl

/-- Witness for C7 at concrete scan and write runs. -/
theorem c7_cost_asymmetry_witness :
    consumes [Ev.poll 1, Ev.issue 0, Ev.consumeEv 3]
        = [pyTrunc ((⟨3⟩ : ScanResp)).capacityUnits]
    ∧ consumes [Ev.poll 1, Ev.issue 0, Ev.consumeEv (writeCost "ab")]
        = [writeCost "ab"] :=
  ⟨c7_cost_asymmetry.1 (fun _ => 1) (fun _ => some ⟨3⟩) (fun _ => 0) 1
      [Ev.poll 1, Ev.issue 0, Ev.consumeEv 3] ⟨3⟩ (by decide),
   c7_cost_asymmetry.2 (fun _ => 1) (fun _ => some ()) "ab" 1
      [Ev.poll 1, Ev.issue 0, Ev.consumeEv (writeCost "ab")] (by decide)⟩

/-! The export worker loop (`ddbExportWorker`, DDBExport.py).  A run is
driven by the sequence of pages (the `Items` list of each successful Scan):
`first` is the response of the initial Scan, `rest` the responses obtained
while `LastEvaluatedKey` keeps appearing.  The worker opens output file 0
before the first Scan, writes every item of each page, counts Scans in
`scans`, and rotates (`close`, optionally upload-to-S3 plus local delete,
open next file) exactly when `scans == size` inside the loop; after the loop
it closes, and optionally stages, the final file. -/

/-- A closed output file: its id, the pages written into it, and whether it
was staged to S3 (uploaded and deleted locally) at close time. -/
structure FileOut (α : Type) where
  fileId : ℕ
  pages : List (List α)
  staged : Bool
  deriving DecidableEq

/-- Filesystem/S3-visible events of an export worker run. -/
inductive XEv (α : Type) where
  | openF (id : ℕ)
  | scan
  | writePage (p : List α)
  | closeF (id : ℕ)
  | upload (id : ℕ)
  | removeF (id : ℕ)
  deriving DecidableEq

/-- Running state of `ddbExportWorker`. -/
structure XState (α : Type) where
  fileId : ℕ
  cur : List (List α)
  scans : ℕ
  files : List (FileOut α)
  trace : List (XEv α)

/-- Events emitted when a file is closed: `out.close()`, then for an S3
destination `s3Upload` followed by `os.remove`. -/
def stageEvents {α : Type} (isS3 : Bool) (id : ℕ) : List (XEv α) :=
  XEv.closeF id :: (if isS3 then [XEv.upload id, XEv.removeF id] else [])

/-- Rotation: close and stage the current file, then open the next one. -/
def rotateFile {α : Type} (isS3 : Bool) (st : XState α) : XState α :=
  { fileId := st.fileId + 1
    cur := []
    scans := 0
    files := st.files ++ [⟨st.fileId, st.cur, isS3⟩]
    trace := st.trace ++ stageEvents isS3 st.fileId ++ [XEv.openF (st.fileId + 1)] }

/-- One iteration of the worker's `while 'LastEvaluatedKey' in response`
loop: Scan, write all items of the page, increment `scans`, and rotate when
`scans == size`. -/
def stepPage {α : Type} (size : ℕ) (isS3 : Bool) (st : XState α)
    (p : List α) : XState α :=
  let st' : XState α :=
    { st with
        cur := st.cur ++ [p]
        scans := st.scans + 1
        trace := st.trace ++ [XEv.scan, XEv.writePage p] }
  if st'.scans = size then rotateFile isS3 st' else st'

/-- Model of `ddbExportWorker`: open file 0, perform the first Scan and write its
page (no rotation check), loop over the remaining pages, then close and
stage the last file. -/
def ddbExportWorker {α : Type} (size : ℕ) (isS3 : Bool) (first : List α)
    (rest : List (List α)) : XState α :=
  let st0 : XState α :=
    ⟨0, [first], 1, [], [XEv.openF 0, XEv.scan, XEv.writePage first]⟩
  let st1 := rest.foldl (stepPage size isS3) st0
  { st1 with
      files := st1.files ++ [⟨st1.fileId, st1.cur, isS3⟩]
      trace := st1.trace ++ stageEvents isS3 st1.fileId }

/-- Number of records (items) written into a closed file. -/
def recordsIn {α : Type} (f : FileOut α) : ℕ :=
  (f.pages.map List.length).sum

/-- The worker state after the page loop, before the final close. -/
def workerFold {α : Type} (size : ℕ) (isS3 : Bool) (first : List α)
    (rest : List (List α)) : XState α :=
  rest.foldl (stepPage size isS3)
    ⟨0, [first], 1, [], [XEv.openF 0, XEv.scan, XEv.writePage first]⟩

theorem ddbExportWorker_files {α : Type} (size : ℕ) (isS3 : Bool)
    (first : List α) (rest : List (List α)) :
    (ddbExportWorker size isS3 first rest).files
      = (workerFold size isS3 first rest).files
        ++ [⟨(workerFold size isS3 first rest).fileId,
             (workerFold size isS3 first rest).cur, isS3⟩] := rfl

theorem ddbExportWorker_trace {α : Type} (size : ℕ) (isS3 : Bool)
    (first : List α) (rest : List (List α)) :
    (ddbExportWorker size isS3 first rest).trace
      = (workerFold size isS3 first rest).trace
        ++ stageEvents isS3 (workerFold size isS3 first rest).fileId := rfl

/-- Loop invariant for the rotation bound: every closed file holds at most
`size` pages and carries the right staging flag, the open file holds exactly
`scans` pages, and `scans` stays strictly below `size`. -/
def RotInv {α : Type} (size : ℕ) (isS3 : Bool) (st : XState α) : Prop :=
  (∀ f ∈ st.files, f.pages.length ≤ size ∧ f.staged = isS3)
  ∧ st.cur.length = st.scans ∧ st.scans < size

theorem stepPage_rot {α : Type} (size : ℕ) (isS3 : Bool) (st : XState α)
    (p : List α) (h : st.scans + 1 = size) :
    stepPage size isS3 st p =
      ⟨st.fileId + 1, [], 0,
        st.files ++ [⟨st.fileId, st.cur ++ [p], isS3⟩],
        st.trace ++ [XEv.scan, XEv.writePage p] ++ stageEvents isS3 st.fileId
          ++ [XEv.openF (st.fileId + 1)]⟩ := by
  unfold stepPage rotateFile
  dsimp only
  rw [if_pos h]

theorem stepPage_norot {α : Type} (size : ℕ) (isS3 : Bool) (st : XState α)
    (p : List α) (h : ¬(st.scans + 1 = size)) :
    stepPage size isS3 st p =
      ⟨st.fileId, st.cur ++ [p], st.scans + 1, st.files,
        st.trace ++ [XEv.scan, XEv.writePage p]⟩ := by
  unfold stepPage
  dsimp only
  rw [if_neg h]

theorem stepPage_inv {α : Type} (size : ℕ) (isS3 : Bool) (st : XState α)
    (p : List α) (h : RotInv size isS3 st) :
    RotInv size isS3 (stepPage size isS3 st p) := by
  obtain ⟨hfiles, hcur, hlt⟩ := h
  unfold RotInv
  by_cases hrot : st.scans + 1 = size
  · rw [stepPage_rot size isS3 st p hrot]
    refine ⟨?_, rfl, ?_⟩
    · intro f hf
      rcases List.mem_append.mp hf with hf | hf
      · exact hfiles f hf
      · rcases List.mem_singleton.mp hf with rfl
        refine ⟨?_, rfl⟩
        show (st.cur ++ [p]).length ≤ size
        simp only [List.length_append, List.length_singleton, hcur]
        omega
    · show 0 < size
      omega
  · rw [stepPage_norot size isS3 st p hrot]
    refine ⟨hfiles, ?_, ?_⟩
    · show (st.cur ++ [p]).length = st.scans + 1
      simp only [List.length_append, List.length_singleton, hcur]
    · show st.scans + 1 < size
      omega

theorem foldl_rotInv {α : Type} (size : ℕ) (isS3 : Bool) :
    ∀ (l : List (List α)) (st : XState α), RotInv size isS3 st →
      RotInv size isS3 (l.foldl (stepPage size isS3) st) := by
  intro l
  induction l with
  | nil => intro st h; exact h
  | cons p l ih =>
      intro st h
      exact ih (stepPage size isS3 st p) (stepPage_inv size isS3 st p h)

theorem foldl_stepPage_trace {α : Type} (size : ℕ) (isS3 : Bool) :
    ∀ (l : List (List α)) (st : XState α), ∃ s,
      (l.foldl (stepPage size isS3) st).trace = st.trace ++ s := by
  intro l
  induction l with
  | nil => intro st; exact ⟨[], by simp⟩
  | cons p l ih =>
      intro st
      obtain ⟨s2, hs2⟩ := ih (stepPage size isS3 st p)
      by_cases hrot : st.scans + 1 = size
      · refine ⟨([XEv.scan, XEv.writePage p] ++ stageEvents isS3 st.fileId
          ++ [XEv.openF (st.fileId + 1)]) ++ s2, ?_⟩
        show (l.foldl (stepPage size isS3) (stepPage size isS3 st p)).trace = _
        rw [hs2, stepPage_rot size isS3 st p hrot]
        simp
      · refine ⟨[XEv.scan, XEv.writePage p] ++ s2, ?_⟩
        show (l.foldl (stepPage size isS3) (stepPage size isS3 st p)).trace = _
        rw [hs2, stepPage_norot size isS3 st p hrot]
        simp

theorem workerFold_trace {α : Type} (size : ℕ) (isS3 : Bool) (first : List α)
    (rest : List (List α)) :
    ∃ s, (workerFold size isS3 first rest).trace
      = XEv.openF 0 :: (([XEv.scan, XEv.writePage first] : List (XEv α)) ++ s) := by
  obtain ⟨s, hs⟩ := foldl_stepPage_trace size isS3 rest
    (⟨0, [first], 1, [], [XEv.openF 0, XEv.scan, XEv.writePage first]⟩ : XState α)
  exact ⟨s, hs⟩

/-- Counterexample to Claim C3 as stated: with configured threshold 2, a
single Scan page of 5 items puts 5 records into the only output file — more
than the threshold, more than threshold-plus-one-write, and with no rotation
having been triggered at all.  The rotation counter counts Scan pages, not
records. -/
theorem c3_rotation_counterexample :
    ((ddbExportWorker 2 false [0, 1, 2, 3, 4] ([] : List (List ℕ))).files.map
        recordsIn) = [5]
    ∧ (ddbExportWorker 2 false [0, 1, 2, 3, 4]
        ([] : List (List ℕ))).files.length = 1
    ∧ ¬ (5 ≤ 2 + 1) := by
  decide

/-- Claim C3 (amended): the per-file threshold `size` counts Scan pages, not
records.  For `2 ≤ size`, no output file of an export worker run ever holds
more than `size` pages (the page whose write reaches the threshold triggers
the rotation); the run always closes at least one file — the final, possibly
short, file included — and every closed file is staged exactly when the
destination is S3. -/
theorem c3_rotation_amended {α : Type} (size : ℕ) (isS3 : Bool)
    (first : List α) (rest : List (List α)) (h : 2 ≤ size) :
    (∀ f ∈ (ddbExportWorker size isS3 first rest).files, f.pages.length ≤ size)
    ∧ (ddbExportWorker size isS3 first rest).files ≠ []
    ∧ (∀ f ∈ (ddbExportWorker size isS3 first rest).files, f.staged = isS3) := by
  have h0 : RotInv size isS3
      (⟨0, [first], 1, [], [XEv.openF 0, XEv.scan, XEv.writePage first]⟩ :
        XState α) := by
    unfold RotInv
    refine ⟨by simp, rfl, ?_⟩
    show 1 < size
    omega
  have h1 : RotInv size isS3 (workerFold size isS3 first rest) :=
    foldl_rotInv size isS3 rest _ h0
  obtain ⟨hfiles, hcur, hlt⟩ := h1
  refine ⟨?_, ?_, ?_⟩
  · intro f hf
    rw [ddbExportWorker_files] at hf
    rcases List.mem_append.mp hf with hf | hf
    · exact (hfiles f hf).1
    · rcases List.mem_singleton.mp hf with rfl
      show (workerFold size isS3 first rest).cur.length ≤ size
      omega
  · rw [ddbExportWorker_files]
    simp
  · intro f hf
    rw [ddbExportWorker_files] at hf
    rcases List.mem_append.mp hf with hf | hf
    · exact (hfiles f hf).2
    · rcases List.mem_singleton.mp hf with rfl
      rfl

/-- Witness for C3 (amended) at threshold 2 and a two-page run. -/
theorem c3_rotation_amended_witness :
    (∀ f ∈ (ddbExportWorker 2 false [0, 1] [[2]]).files, f.pages.length ≤ 2)
    ∧ (ddbExportWorker 2 false [0, 1] [[2]]).files ≠ []
    ∧ (∀ f ∈ (ddbExportWorker 2 false [0, 1] [[2]]).files, f.staged = false) :=
  c3_rotation_amended 2 false [0, 1] [[2]] (by omega)

/-- Claim C10: every export worker run closes at least one file; the trace
starts by opening file 0, before any Scan is issued; and a worker whose
partition is empty (one Scan returning no items and no continuation key)
still produces exactly one output file holding zero records which, for an S3
destination, is closed, uploaded and locally removed. -/
theorem c10_first_file_and_empty_partition {α : Type} (size : ℕ) (isS3 : Bool)
    (first : List α) (rest : List (List α)) :
    1 ≤ (ddbExportWorker size isS3 first rest).files.length
    ∧ (ddbExportWorker size isS3 first rest).trace.head? = some (XEv.openF 0)
    ∧ (ddbExportWorker size true ([] : List α) []).files = [⟨0, [[]], true⟩]
    ∧ recordsIn (⟨0, [[]], true⟩ : FileOut α) = 0
    ∧ (ddbExportWorker size true ([] : List α) []).trace
        = [XEv.openF 0, XEv.scan, XEv.writePage [], XEv.closeF 0,
           XEv.upload 0, XEv.removeF 0] := by
  refine ⟨?_, ?_, rfl, rfl, rfl⟩
  · rw [ddbExportWorker_files, List.length_append]
    simp
  · obtain ⟨s, hs⟩ := workerFold_trace size isS3 first rest
    rw [ddbExportWorker_trace, hs]
    rfl

/-! Numeric serialization.  DDBExport.py dumps items with
`json.dumps(item, default=decimal_default)`; DDBImport.py parses lines with
`json.loads(line, parse_float=Decimal)`.  `Decimal` values are modelled as
rationals; the lossy Decimal-to-binary-float conversion of the non-integer
branch is abstracted as the `toFloat` parameter. -/

/-- A JSON number as emitted by the export side: an integer literal or a
float literal. -/
inductive JNum where
  | jint (z : ℤ)
  | jfloat (x : ℚ)
  deriving DecidableEq

/-- A Python number as produced by `json.loads(line, parse_float=Decimal)`:
integer literals become `int`, float literals become `Decimal`. -/
inductive PyNum where
  | pyint (z : ℤ)
  | pydec (q : ℚ)
  deriving DecidableEq

/-- Numeric value of a parsed Python number. -/
def PyNum.val : PyNum → ℚ
  | PyNum.pyint z => z
  | PyNum.pydec q => q

/-- Model of `decimal_default` (DDBExport.py): a `Decimal` with `int(obj) == obj` is
serialized as `int(obj)`, any other as `float(obj)`. -/
def decimal_default (toFloat : ℚ → ℚ) (q : ℚ) : JNum :=
  if (pyTrunc q : ℚ) = q then JNum.jint (pyTrunc q) else JNum.jfloat (toFloat q)

/-- Model of `json.loads(..., parse_float=Decimal)` on one JSON number (the parse in
`ddbWrite`, DDBImport.py). -/
def parseNum (j : JNum) : PyNum :=
  match j with
  | JNum.jint z => PyNum.pyint z
  | JNum.jfloat x => PyNum.pydec x

theorem pyTrunc_of_den_eq_one (q : ℚ) (h : q.den = 1) : pyTrunc q = q.num := by
  unfold pyTrunc
  rw [h]
  by_cases h0 : 0 ≤ q.num
  · rw [if_pos h0]
    simp [Nat.div_one, Int.toNat_of_nonneg h0]
  · rw [if_neg h0]
    have h1 : 0 ≤ -q.num := by omega
    simp [Nat.div_one, Int.toNat_of_nonneg h1]

/-- Claim C8: a `Decimal` with zero fractional part is serialized as an
integer (exactly its value) and any other as a float; the import parses
float literals back into `Decimal`; hence integer-valued high-precision
numbers round-trip exactly through export followed by import. -/
theorem c8_numeric_roundtrip :
    (∀ (toFloat : ℚ → ℚ) (q : ℚ), q.den = 1 →
        decimal_default toFloat q = JNum.jint q.num
        ∧ (parseNum (decimal_default toFloat q)).val = q)
    ∧ (∀ (toFloat : ℚ → ℚ) (q : ℚ), q.den ≠ 1 →
        decimal_default toFloat q = JNum.jfloat (toFloat q))
    ∧ (∀ x : ℚ, parseNum (JNum.jfloat x) = PyNum.pydec x) := by
  refine ⟨?_, ?_, fun x => rfl⟩
  · intro toFloat q h
    have hnum : (q.num : ℚ) = q := (Rat.den_eq_one_iff q).mp h
    have ht : pyTrunc q = q.num := pyTrunc_of_den_eq_one q h
    have hcond : (pyTrunc q : ℚ) = q := by rw [ht, hnum]
    constructor
    · unfold decimal_default
      rw [if_pos hcond, ht]
    · unfold decimal_default
      rw [if_pos hcond, ht]
      show (q.num : ℚ) = q
      exact hnum
  · intro toFloat q h
    have hcond : ¬((pyTrunc q : ℚ) = q) := by
      intro hc
      exact h ((Rat.den_eq_one_iff q).mpr (by
        have ht : pyTrunc q = q.num := by
          have := congrArg Rat.num hc
          simpa using this
        rw [← ht]
        exact hc))
    unfold decimal_default
    rw [if_neg hcond]

/-- Witness for C8: the integer-valued Decimal 5 round-trips exactly, while
7/2 is serialized through the float branch. -/
theorem c8_numeric_roundtrip_witness :
    (decimal_default id 5 = JNum.jint (5 : ℚ).num
      ∧ (parseNum (decimal_default id 5)).val = 5)
    ∧ decimal_default id (mkRat 7 2) = JNum.jfloat (id (mkRat 7 2)) :=
  ⟨c8_numeric_roundtrip.1 id 5 (by decide),
   c8_numeric_roundtrip.2.1 id (mkRat 7 2) (by decide)⟩

/-! The import work-queue setup (`__main__` of DDBImport.py together with
`listLocalFiles` / `listS3Objects`). -/

/-- Queue discipline chosen by the import main program. -/
inductive QueueType where
  | LINE
  | FILE
  | S3Object
  deriving DecidableEq

/-- Outcome of the queue-setup phase of DDBImport.py's main block: the clean
fatal exit when no input is found, an unhandled-exception crash, or a
populated queue with its discipline. -/
inductive ImportSetup where
  | fatalNoInput
  | crash
  | queue (qt : QueueType) (entries : List String)
  deriving DecidableEq

/-- The local filesystem as seen by `listLocalFiles` and `open`: predicates
for regular files and directories, the lines of each regular file, and the
recursive `glob('*.json')` listing under each directory. -/
structure LocalFS where
  isFile : String → Bool
  isDir : String → Bool
  fileLines : String → List String
  jsonUnder : String → List String

/-- Model of `listLocalFiles` (DDBImport.py): an existing `.json` regular file is
returned as a singleton; a directory yields its recursive `*.json` glob,
shuffled; `shuffle` stands for the permutation chosen by
`random.shuffle`. -/
def listLocalFiles (fs : LocalFS) (shuffle : List String → List String)
    (source : String) : List String :=
  if fs.isFile source || fs.isDir source then
    if fs.isFile source then
      if source.endsWith ".json" then [source] else []
    else shuffle (fs.jsonUnder source)
  else []

/-- The local branch of DDBImport.py's queue setup: 0 discovered files is a
fatal error before any worker starts; exactly 1 selects LINE and enqueues
the lines of `open(source)` — the original `source` argument, not the
discovered file — which raises an unhandled `IsADirectoryError` when
`source` is a directory; more than 1 selects FILE and enqueues the
discovered filenames. -/
def importLocalSetup (fs : LocalFS) (shuffle : List String → List String)
    (source : String) : ImportSetup :=
  let files := listLocalFiles fs shuffle source
  if files.length = 0 then ImportSetup.fatalNoInput
  else if files.length = 1 then
    (if fs.isFile source then
      ImportSetup.queue QueueType.LINE (fs.fileLines source)
     else ImportSetup.crash)
  else ImportSetup.queue QueueType.FILE files

/-- Model of `listS3Objects` (DDBImport.py): keep the listed keys ending in `json`,
and shuffle when more than one remains. -/
def listS3Objects (shuffle : List String → List String)
    (keys : List String) : List String :=
  let results := keys.filter (fun k => k.endsWith "json")
  if 1 < results.length then shuffle results else results

/-- The S3 branch of DDBImport.py's queue setup: 0 objects is fatal; 1
selects LINE and enqueues the lines of `objects[0]`; more select S3Object
and enqueue the keys. -/
def importS3Setup (shuffle : List String → List String) (keys : List String)
    (objLines : String → List String) : ImportSetup :=
  let objects := listS3Objects shuffle keys
  if objects.length = 0 then ImportSetup.fatalNoInput
  else if objects.length = 1 then
    ImportSetup.queue QueueType.LINE (objLines (objects.getD 0 ""))
  else ImportSetup.queue QueueType.S3Object objects

/-- A local source `d` that is a directory containing exactly one JSON file
`d/a.json` with two lines. -/
def dirFS : LocalFS :=
  { isFile := fun p => p == "d/a.json"
    isDir := fun p => p == "d"
    fileLines := fun p => if p == "d/a.json" then ["r1", "r2"] else []
    jsonUnder := fun p => if p == "d" then ["d/a.json"] else [] }

/-- Claim C4 at its failing input (source = directory `d` holding exactly
one discovered `.json` file): exactly one input is discovered, so the LINE
discipline is selected, but the code opens `source` — the directory — and
crashes with an unhandled exception instead of enqueuing the lines of the
discovered file as the claim states. -/
theorem c4_single_input_dir_bug :
    listLocalFiles dirFS id "d" = ["d/a.json"]
    ∧ importLocalSetup dirFS id "d" = ImportSetup.crash
    ∧ importLocalSetup dirFS id "d"
        ≠ ImportSetup.queue QueueType.LINE (dirFS.fileLines "d/a.json") := by
  decide

end DDB
